import Mathlib

/-!
Verification of the bundle v1 service (`pkg/server/api/bundle/v1/service.go`).

The service orchestrates bundle operations against a storage layer
(datastore), an upstream publisher, and a rate limiter. Those collaborators,
together with the authority/bundle converters and the trust-domain parser
from the surrounding packages, are external to the verified core: they are
represented as abstract, pure oracles (fields of `Env`, `DataStore` and
`Service`). Each service handler is embedded as a pure function that also
returns the list of storage calls it performed, so that properties of the
form "storage is never called" can be stated directly.
-/

deriving instance DecidableEq for Except

namespace SpireBundle

/-- gRPC status codes used by the service and its collaborators. -/
inductive Code where
  | ok
  | invalidArgument
  | notFound
  | alreadyExists
  | resourceExhausted
  | failedPrecondition
  | permissionDenied
  | internal
  | unknown
deriving DecidableEq, Repr

/-- Modelled from the spec: a collaborator error carrying a gRPC status code
(`status.Code(err)` applied to a Go error) and a message. -/
structure GoError where
  code : Code
  msg : String
deriving DecidableEq, Repr

/-- Modelled from the spec: the API-facing status produced by `api.MakeStatus`
and `api.MakeErr` (from `pkg/server/api`, outside the verified core): a code
plus a contextual message wrapping the underlying cause when present. -/
structure Status where
  code : Code
  message : String
deriving DecidableEq, Repr

/-- Modelled from the spec: `api.MakeStatus` / `api.MakeErr` build a status
from a code, a message and an optional underlying cause. -/
def mkStatus (code : Code) (msg : String) (cause : Option GoError) : Status :=
  { code := code
    message := match cause with
      | none => msg
      | some e => msg ++ ": " ++ e.msg }

/-- Modelled from the spec: `api.OK()`. -/
def okStatus : Status := { code := Code.ok, message := "OK" }

/-- A canonicalized trust domain (`spiffeid.TrustDomain`); `Compare == 0` in
the source is equality of the canonical names. -/
structure TrustDomain where
  name : String
deriving DecidableEq, Repr

/-- Modelled from the spec: `spiffeid.TrustDomain.IDString()`. -/
def idString (td : TrustDomain) : String := "spiffe://" ++ td.name

/-- A wire JWT authority (`types.JWTKey`). -/
structure JWTKey where
  publicKey : List Nat
  keyId : String
  expiresAt : Int
deriving DecidableEq, Repr

/-- A wire X.509 authority (`types.X509Certificate`). -/
structure X509Certificate where
  asn1 : List Nat
deriving DecidableEq, Repr

/-- The API bundle (`types.Bundle`). -/
structure Bundle where
  trustDomain : String
  x509Authorities : List X509Certificate
  jwtAuthorities : List JWTKey
  refreshHint : Int
  sequenceNumber : Nat
deriving DecidableEq, Repr

/-- The bundle field mask (`types.BundleMask`): four independent selectors. -/
structure BundleMask where
  refreshHint : Bool
  sequenceNumber : Bool
  x509Authorities : Bool
  jwtAuthorities : Bool
deriving DecidableEq, Repr

/-- A storage-layer public key (`common.PublicKey`). -/
structure CommonPublicKey where
  pkixBytes : List Nat
  kid : String
  notAfter : Int
deriving DecidableEq, Repr

/-- The storage-layer bundle (`common.Bundle`). -/
structure CommonBundle where
  trustDomainId : String
  rootCas : List X509Certificate
  jwtSigningKeys : List CommonPublicKey
  refreshHint : Int
  sequenceNumber : Nat
deriving DecidableEq, Repr

/-- The storage deletion policy (`datastore.DeleteBundleRequest_Mode`). -/
inductive DSDeleteMode where
  | RESTRICT
  | DISSOCIATE
  | DELETE
deriving DecidableEq, Repr

/-- Pagination parameters passed to and returned from `datastore.ListBundles`. -/
structure Pagination where
  pageSize : Int
  token : String
deriving DecidableEq, Repr

/-- The storage response of `datastore.ListBundles`. -/
structure ListBundlesResponse where
  bundles : List CommonBundle
  pagination : Option Pagination
deriving DecidableEq, Repr

/-- A record of one storage-layer call made by a handler. -/
inductive DSCall where
  | countBundles
  | fetchBundle (trustDomainId : String)
  | listBundles (pagination : Option Pagination)
  | createBundle (b : CommonBundle)
  | updateBundle (b : CommonBundle) (inputMask : Option BundleMask)
  | setBundle (b : CommonBundle)
  | appendBundle (b : CommonBundle)
  | deleteBundle (trustDomainId : String) (mode : DSDeleteMode)
deriving DecidableEq, Repr

/-- The storage layer (`datastore.DataStore`) as a pure oracle: each call's
outcome depends only on its arguments, as with a deterministic test double. -/
structure DataStore where
  countBundles : Except GoError Int
  fetchBundle : String → Except GoError (Option CommonBundle)
  listBundles : Option Pagination → Except GoError ListBundlesResponse
  createBundle : CommonBundle → Except GoError CommonBundle
  updateBundle : CommonBundle → Option BundleMask → Except GoError CommonBundle
  setBundle : CommonBundle → Except GoError CommonBundle
  appendBundle : CommonBundle → Except GoError CommonBundle
  deleteBundle : String → DSDeleteMode → Option GoError

/-- Modelled from the spec: the trust-domain parser and the authority/bundle
converters from `spiffeid` and `pkg/server/api`, outside the verified core,
kept abstract as pure fallible functions. -/
structure Env where
  trustDomainFromString : String → Except GoError TrustDomain
  bundleToProto : CommonBundle → Except GoError Bundle
  protoToBundle : Bundle → Except GoError CommonBundle
  parseJWTAuthorities : List JWTKey → Except GoError (List CommonPublicKey)
  parseX509Authorities : List X509Certificate → Except GoError (List X509Certificate)
  protoToBundleMask : Option BundleMask → Option BundleMask
  publicKeysToProto : List CommonPublicKey → List JWTKey

/-- The bundle service (`Service`): datastore, configured trust domain and
upstream publisher. -/
structure Service where
  ds : DataStore
  td : TrustDomain
  up : CommonPublicKey → Except GoError (List CommonPublicKey)

/-- `applyBundleMask`: clears the fields whose selector is unset; a nil mask
leaves the bundle untouched. -/
def applyBundleMask (b : Bundle) (mask : Option BundleMask) : Bundle :=
  match mask with
  | none => b
  | some m =>
    { b with
      refreshHint := if m.refreshHint then b.refreshHint else 0
      sequenceNumber := if m.sequenceNumber then b.sequenceNumber else 0
      x509Authorities := if m.x509Authorities then b.x509Authorities else []
      jwtAuthorities := if m.jwtAuthorities then b.jwtAuthorities else [] }

/-- The wire delete mode (`bundlev1.BatchDeleteFederatedBundleRequest_Mode`),
a proto enum carried as an integer. -/
def ModeRESTRICT : Int := 0

/-- `DISSOCIATE` wire enum value. -/
def ModeDISSOCIATE : Int := 1

/-- `DELETE` wire enum value. -/
def ModeDELETE : Int := 2

/-- `parseDeleteMode`: maps the wire delete mode to the storage deletion
policy; an unhandled value yields a plain (non-status) error naming the mode. -/
def parseDeleteMode (mode : Int) : Except GoError DSDeleteMode :=
  if mode = ModeRESTRICT then Except.ok DSDeleteMode.RESTRICT
  else if mode = ModeDISSOCIATE then Except.ok DSDeleteMode.DISSOCIATE
  else if mode = ModeDELETE then Except.ok DSDeleteMode.DELETE
  else Except.error { code := Code.unknown, msg := "unhandled delete mode " ++ toString mode }

/-- `bundlev1.GetFederatedBundleRequest`. -/
structure GetFederatedBundleRequest where
  trustDomain : String
  outputMask : Option BundleMask
deriving DecidableEq, Repr

/-- `bundlev1.ListFederatedBundlesRequest`. -/
structure ListFederatedBundlesRequest where
  outputMask : Option BundleMask
  pageSize : Int
  pageToken : String
deriving DecidableEq, Repr

/-- `bundlev1.ListFederatedBundlesResponse`. -/
structure ListFederatedBundlesResponse where
  bundles : List Bundle
  nextPageToken : String
deriving DecidableEq, Repr

/-- `bundlev1.AppendBundleRequest`. -/
structure AppendBundleRequest where
  x509Authorities : List X509Certificate
  jwtAuthorities : List JWTKey
  outputMask : Option BundleMask
deriving DecidableEq, Repr

/-- `bundlev1.PublishJWTAuthorityRequest`. -/
structure PublishJWTAuthorityRequest where
  jwtAuthority : Option JWTKey
deriving DecidableEq, Repr

/-- `bundlev1.PublishJWTAuthorityResponse`. -/
structure PublishJWTAuthorityResponse where
  jwtAuthorities : List JWTKey
deriving DecidableEq, Repr

/-- `bundlev1.BatchCreateFederatedBundleResponse_Result`. -/
structure BatchCreateFederatedBundleResult where
  status : Status
  bundle : Option Bundle
deriving DecidableEq, Repr

/-- `bundlev1.BatchUpdateFederatedBundleResponse_Result`. -/
structure BatchUpdateFederatedBundleResult where
  status : Status
  bundle : Option Bundle
deriving DecidableEq, Repr

/-- `bundlev1.BatchSetFederatedBundleResponse_Result`. -/
structure BatchSetFederatedBundleResult where
  status : Status
  bundle : Option Bundle
deriving DecidableEq, Repr

/-- `bundlev1.BatchDeleteFederatedBundleResponse_Result`. -/
structure BatchDeleteFederatedBundleResult where
  status : Status
  trustDomain : String
deriving DecidableEq, Repr

/-- `bundlev1.BatchCreateFederatedBundleRequest`. -/
structure BatchCreateFederatedBundleRequest where
  bundle : List Bundle
  outputMask : Option BundleMask
deriving DecidableEq, Repr

/-- `bundlev1.BatchUpdateFederatedBundleRequest`. -/
structure BatchUpdateFederatedBundleRequest where
  bundle : List Bundle
  inputMask : Option BundleMask
  outputMask : Option BundleMask
deriving DecidableEq, Repr

/-- `bundlev1.BatchSetFederatedBundleRequest`. -/
structure BatchSetFederatedBundleRequest where
  bundle : List Bundle
  outputMask : Option BundleMask
deriving DecidableEq, Repr

/-- `bundlev1.BatchDeleteFederatedBundleRequest`. -/
structure BatchDeleteFederatedBundleRequest where
  trustDomains : List String
  mode : Int
deriving DecidableEq, Repr

/-- `bundlev1.BatchCreateFederatedBundleResponse`. -/
structure BatchCreateFederatedBundleResponse where
  results : List BatchCreateFederatedBundleResult
deriving DecidableEq, Repr

/-- `bundlev1.BatchUpdateFederatedBundleResponse`. -/
structure BatchUpdateFederatedBundleResponse where
  results : List BatchUpdateFederatedBundleResult
deriving DecidableEq, Repr

/-- `bundlev1.BatchSetFederatedBundleResponse`. -/
structure BatchSetFederatedBundleResponse where
  results : List BatchSetFederatedBundleResult
deriving DecidableEq, Repr

/-- `bundlev1.BatchDeleteFederatedBundleResponse`. -/
structure BatchDeleteFederatedBundleResponse where
  results : List BatchDeleteFederatedBundleResult
deriving DecidableEq, Repr

/-- `GetFederatedBundle`: parse the trust domain, reject the server's own,
fetch from storage, translate not-found, convert and mask. -/
def getFederatedBundle (env : Env) (s : Service) (req : GetFederatedBundleRequest) :
    Except Status Bundle × List DSCall :=
  match env.trustDomainFromString req.trustDomain with
  | Except.error e =>
    (Except.error (mkStatus Code.invalidArgument "trust domain argument is not valid" (some e)), [])
  | Except.ok td =>
    if s.td = td then
      (Except.error (mkStatus Code.invalidArgument
        "getting a federated bundle for the server's own trust domain is not allowed" none), [])
    else
      match s.ds.fetchBundle (idString td) with
      | Except.error e =>
        (Except.error (mkStatus Code.internal "failed to fetch bundle" (some e)),
         [DSCall.fetchBundle (idString td)])
      | Except.ok none =>
        (Except.error (mkStatus Code.notFound "bundle not found" none),
         [DSCall.fetchBundle (idString td)])
      | Except.ok (some dsBundle) =>
        match env.bundleToProto dsBundle with
        | Except.error e =>
          (Except.error (mkStatus Code.internal "failed to convert bundle" (some e)),
           [DSCall.fetchBundle (idString td)])
        | Except.ok b =>
          (Except.ok (applyBundleMask b req.outputMask), [DSCall.fetchBundle (idString td)])

/-- `createFederatedBundle`: the per-item handler of `BatchCreateFederatedBundle`. -/
def createFederatedBundle (env : Env) (s : Service) (b : Bundle) (outputMask : Option BundleMask) :
    BatchCreateFederatedBundleResult × List DSCall :=
  match env.trustDomainFromString b.trustDomain with
  | Except.error e =>
    ({ status := mkStatus Code.invalidArgument "trust domain argument is not valid" (some e)
       bundle := none }, [])
  | Except.ok td =>
    if s.td = td then
      ({ status := mkStatus Code.invalidArgument
           "creating a federated bundle for the server's own trust domain is not allowed" none
         bundle := none }, [])
    else
      match env.protoToBundle b with
      | Except.error e =>
        ({ status := mkStatus Code.invalidArgument "failed to convert bundle" (some e)
           bundle := none }, [])
      | Except.ok dsBundle =>
        match s.ds.createBundle dsBundle with
        | Except.error e =>
          match e.code with
          | Code.alreadyExists =>
            ({ status := mkStatus Code.alreadyExists "bundle already exists" none
               bundle := none }, [DSCall.createBundle dsBundle])
          | _ =>
            ({ status := mkStatus Code.internal "unable to create bundle" (some e)
               bundle := none }, [DSCall.createBundle dsBundle])
        | Except.ok respBundle =>
          match env.bundleToProto respBundle with
          | Except.error e =>
            ({ status := mkStatus Code.internal "failed to convert bundle" (some e)
               bundle := none }, [DSCall.createBundle dsBundle])
          | Except.ok protoBundle =>
            ({ status := okStatus
               bundle := some (applyBundleMask protoBundle outputMask) },
             [DSCall.createBundle dsBundle])

/-- `setFederatedBundle`: the per-item handler of `BatchSetFederatedBundle`. -/
def setFederatedBundle (env : Env) (s : Service) (b : Bundle) (outputMask : Option BundleMask) :
    BatchSetFederatedBundleResult × List DSCall :=
  match env.trustDomainFromString b.trustDomain with
  | Except.error e =>
    ({ status := mkStatus Code.invalidArgument "trust domain argument is not valid" (some e)
       bundle := none }, [])
  | Except.ok td =>
    if s.td = td then
      ({ status := mkStatus Code.invalidArgument
           "setting a federated bundle for the server's own trust domain is not allowed" none
         bundle := none }, [])
    else
      match env.protoToBundle b with
      | Except.error e =>
        ({ status := mkStatus Code.invalidArgument "failed to convert bundle" (some e)
           bundle := none }, [])
      | Except.ok dsBundle =>
        match s.ds.setBundle dsBundle with
        | Except.error e =>
          ({ status := mkStatus Code.internal "failed to set bundle" (some e)
             bundle := none }, [DSCall.setBundle dsBundle])
        | Except.ok respBundle =>
          match env.bundleToProto respBundle with
          | Except.error e =>
            ({ status := mkStatus Code.internal "failed to convert bundle" (some e)
               bundle := none }, [DSCall.setBundle dsBundle])
          | Except.ok protoBundle =>
            ({ status := okStatus
               bundle := some (applyBundleMask protoBundle outputMask) },
             [DSCall.setBundle dsBundle])

/-- `updateFederatedBundle`: the per-item handler of `BatchUpdateFederatedBundle`. -/
def updateFederatedBundle (env : Env) (s : Service) (b : Bundle)
    (inputMask outputMask : Option BundleMask) :
    BatchUpdateFederatedBundleResult × List DSCall :=
  match env.trustDomainFromString b.trustDomain with
  | Except.error e =>
    ({ status := mkStatus Code.invalidArgument "trust domain argument is not valid" (some e)
       bundle := none }, [])
  | Except.ok td =>
    if s.td = td then
      ({ status := mkStatus Code.invalidArgument
           "updating a federated bundle for the server's own trust domain is not allowed" none
         bundle := none }, [])
    else
      match env.protoToBundle b with
      | Except.error e =>
        ({ status := mkStatus Code.invalidArgument "failed to convert bundle" (some e)
           bundle := none }, [])
      | Except.ok dsBundle =>
        match s.ds.updateBundle dsBundle (env.protoToBundleMask inputMask) with
        | Except.error e =>
          match e.code with
          | Code.notFound =>
            ({ status := mkStatus Code.notFound "bundle not found" (some e)
               bundle := none },
             [DSCall.updateBundle dsBundle (env.protoToBundleMask inputMask)])
          | _ =>
            ({ status := mkStatus Code.internal "failed to update bundle" (some e)
               bundle := none },
             [DSCall.updateBundle dsBundle (env.protoToBundleMask inputMask)])
        | Except.ok respBundle =>
          match env.bundleToProto respBundle with
          | Except.error e =>
            ({ status := mkStatus Code.internal "failed to convert bundle" (some e)
               bundle := none },
             [DSCall.updateBundle dsBundle (env.protoToBundleMask inputMask)])
          | Except.ok protoBundle =>
            ({ status := okStatus
               bundle := some (applyBundleMask protoBundle outputMask) },
             [DSCall.updateBundle dsBundle (env.protoToBundleMask inputMask)])

/-- `deleteFederatedBundle`: the per-item handler of `BatchDeleteFederatedBundle`.
The default branch of the switch reuses the storage error's own code. -/
def deleteFederatedBundle (env : Env) (s : Service) (trustDomain : String)
    (mode : DSDeleteMode) : BatchDeleteFederatedBundleResult × List DSCall :=
  match env.trustDomainFromString trustDomain with
  | Except.error e =>
    ({ status := mkStatus Code.invalidArgument "trust domain argument is not valid" (some e)
       trustDomain := trustDomain }, [])
  | Except.ok td =>
    if s.td = td then
      ({ status := mkStatus Code.invalidArgument
           "removing the bundle for the server trust domain is not allowed" none
         trustDomain := trustDomain }, [])
    else
      match s.ds.deleteBundle (idString td) mode with
      | none =>
        ({ status := okStatus, trustDomain := trustDomain },
         [DSCall.deleteBundle (idString td) mode])
      | some e =>
        match e.code with
        | Code.ok =>
          ({ status := okStatus, trustDomain := trustDomain },
           [DSCall.deleteBundle (idString td) mode])
        | Code.notFound =>
          ({ status := mkStatus Code.notFound "bundle not found" (some e)
             trustDomain := trustDomain },
           [DSCall.deleteBundle (idString td) mode])
        | c =>
          ({ status := mkStatus c "failed to delete federated bundle" (some e)
             trustDomain := trustDomain },
           [DSCall.deleteBundle (idString td) mode])

/-- The loop of `BatchCreateFederatedBundle`, one result per input bundle. -/
def batchCreateLoop (env : Env) (s : Service) (om : Option BundleMask) :
    List Bundle → List BatchCreateFederatedBundleResult × List DSCall
  | [] => ([], [])
  | b :: rest =>
    let r := createFederatedBundle env s b om
    let rs := batchCreateLoop env s om rest
    (r.1 :: rs.1, r.2 ++ rs.2)

/-- `BatchCreateFederatedBundle`. -/
def batchCreateFederatedBundle (env : Env) (s : Service)
    (req : BatchCreateFederatedBundleRequest) :
    BatchCreateFederatedBundleResponse × List DSCall :=
  let lp := batchCreateLoop env s req.outputMask req.bundle
  ({ results := lp.1 }, lp.2)

/-- The loop of `BatchUpdateFederatedBundle`, one result per input bundle. -/
def batchUpdateLoop (env : Env) (s : Service) (im om : Option BundleMask) :
    List Bundle → List BatchUpdateFederatedBundleResult × List DSCall
  | [] => ([], [])
  | b :: rest =>
    let r := updateFederatedBundle env s b im om
    let rs := batchUpdateLoop env s im om rest
    (r.1 :: rs.1, r.2 ++ rs.2)

/-- `BatchUpdateFederatedBundle`. -/
def batchUpdateFederatedBundle (env : Env) (s : Service)
    (req : BatchUpdateFederatedBundleRequest) :
    BatchUpdateFederatedBundleResponse × List DSCall :=
  let lp := batchUpdateLoop env s req.inputMask req.outputMask req.bundle
  ({ results := lp.1 }, lp.2)

/-- The loop of `BatchSetFederatedBundle`, one result per input bundle. -/
def batchSetLoop (env : Env) (s : Service) (om : Option BundleMask) :
    List Bundle → List BatchSetFederatedBundleResult × List DSCall
  | [] => ([], [])
  | b :: rest =>
    let r := setFederatedBundle env s b om
    let rs := batchSetLoop env s om rest
    (r.1 :: rs.1, r.2 ++ rs.2)

/-- `BatchSetFederatedBundle`. -/
def batchSetFederatedBundle (env : Env) (s : Service)
    (req : BatchSetFederatedBundleRequest) :
    BatchSetFederatedBundleResponse × List DSCall :=
  let lp := batchSetLoop env s req.outputMask req.bundle
  ({ results := lp.1 }, lp.2)

/-- The loop of `BatchDeleteFederatedBundle`, one result per trust domain. -/
def batchDeleteLoop (env : Env) (s : Service) (mode : DSDeleteMode) :
    List String → List BatchDeleteFederatedBundleResult × List DSCall
  | [] => ([], [])
  | t :: rest =>
    let r := deleteFederatedBundle env s t mode
    let rs := batchDeleteLoop env s mode rest
    (r.1 :: rs.1, r.2 ++ rs.2)

/-- `BatchDeleteFederatedBundle`: the delete mode is resolved once, before the
loop; an invalid mode fails the whole call with `InvalidArgument`. -/
def batchDeleteFederatedBundle (env : Env) (s : Service)
    (req : BatchDeleteFederatedBundleRequest) :
    Except Status BatchDeleteFederatedBundleResponse × List DSCall :=
  match parseDeleteMode req.mode with
  | Except.error e =>
    (Except.error (mkStatus Code.invalidArgument "failed to parse deletion mode" (some e)), [])
  | Except.ok mode =>
    let lp := batchDeleteLoop env s mode req.trustDomains
    (Except.ok { results := lp.1 }, lp.2)

/-- The pagination parameters `ListFederatedBundles` passes to storage. -/
def reqPagination (req : ListFederatedBundlesRequest) : Option Pagination :=
  if req.pageSize > 0 then some { pageSize := req.pageSize, token := req.pageToken } else none

/-- The per-bundle loop of `ListFederatedBundles`: a malformed trust-domain
identifier or a failed conversion aborts the whole call; the server's own
bundle is skipped; the rest are converted and masked in order. -/
def listFederatedBundlesLoop (env : Env) (s : Service) (om : Option BundleMask) :
    List CommonBundle → Except Status (List Bundle)
  | [] => Except.ok []
  | dsBundle :: rest =>
    match env.trustDomainFromString dsBundle.trustDomainId with
    | Except.error e =>
      Except.error (mkStatus Code.internal "bundle has an invalid trust domain ID" (some e))
    | Except.ok td =>
      if s.td = td then
        listFederatedBundlesLoop env s om rest
      else
        match env.bundleToProto dsBundle with
        | Except.error e =>
          Except.error (mkStatus Code.internal "failed to convert bundle" (some e))
        | Except.ok b =>
          match listFederatedBundlesLoop env s om rest with
          | Except.error st => Except.error st
          | Except.ok bs => Except.ok (applyBundleMask b om :: bs)

/-- `ListFederatedBundles`. -/
def listFederatedBundles (env : Env) (s : Service) (req : ListFederatedBundlesRequest) :
    Except Status ListFederatedBundlesResponse × List DSCall :=
  let listReq := reqPagination req
  match s.ds.listBundles listReq with
  | Except.error e =>
    (Except.error (mkStatus Code.internal "failed to list bundles" (some e)),
     [DSCall.listBundles listReq])
  | Except.ok dsResp =>
    match listFederatedBundlesLoop env s req.outputMask dsResp.bundles with
    | Except.error st => (Except.error st, [DSCall.listBundles listReq])
    | Except.ok bs =>
      (Except.ok { bundles := bs
                   nextPageToken := (dsResp.pagination.map (fun p => p.token)).getD "" },
       [DSCall.listBundles listReq])

/-- `AppendBundle`: requires at least one authority, converts them, and unions
them into the server's own bundle through storage. -/
def appendBundle (env : Env) (s : Service) (req : AppendBundleRequest) :
    Except Status Bundle × List DSCall :=
  if req.jwtAuthorities.length = 0 ∧ req.x509Authorities.length = 0 then
    (Except.error (mkStatus Code.invalidArgument "no authorities to append" none), [])
  else
    match env.parseJWTAuthorities req.jwtAuthorities with
    | Except.error e =>
      (Except.error (mkStatus Code.invalidArgument "failed to convert JWT authority" (some e)), [])
    | Except.ok jwtAuth =>
      match env.parseX509Authorities req.x509Authorities with
      | Except.error e =>
        (Except.error (mkStatus Code.invalidArgument "failed to convert X.509 authority" (some e)), [])
      | Except.ok x509Auth =>
        let dsBundle : CommonBundle :=
          { trustDomainId := idString s.td
            rootCas := x509Auth
            jwtSigningKeys := jwtAuth
            refreshHint := 0
            sequenceNumber := 0 }
        match s.ds.appendBundle dsBundle with
        | Except.error e =>
          (Except.error (mkStatus Code.internal "failed to append bundle" (some e)),
           [DSCall.appendBundle dsBundle])
        | Except.ok respBundle =>
          match env.bundleToProto respBundle with
          | Except.error e =>
            (Except.error (mkStatus Code.internal "failed to convert bundle" (some e)),
             [DSCall.appendBundle dsBundle])
          | Except.ok bundle =>
            (Except.ok (applyBundleMask bundle req.outputMask), [DSCall.appendBundle dsBundle])

/-- `PublishJWTAuthority`: the rate limiter is consulted first (its outcome is
the `rateLimit` argument, `rpccontext.RateLimit(ctx, 1)`); the returned list
records the keys forwarded to the upstream publisher. -/
def publishJWTAuthority (env : Env) (s : Service) (rateLimit : Option GoError)
    (req : PublishJWTAuthorityRequest) :
    Except Status PublishJWTAuthorityResponse × List CommonPublicKey :=
  match rateLimit with
  | some e =>
    (Except.error (mkStatus e.code "rejecting request due to key publishing rate limiting" (some e)),
     [])
  | none =>
    match req.jwtAuthority with
    | none => (Except.error (mkStatus Code.invalidArgument "missing JWT authority" none), [])
    | some jk =>
      match env.parseJWTAuthorities [jk] with
      | Except.error e =>
        (Except.error (mkStatus Code.invalidArgument "invalid JWT authority" (some e)), [])
      | Except.ok keys =>
        let key := keys.headD { pkixBytes := [], kid := "", notAfter := 0 }
        match s.up key with
        | Except.error e =>
          (Except.error (mkStatus Code.internal "failed to publish JWT key" (some e)), [key])
        | Except.ok resp =>
          (Except.ok { jwtAuthorities := env.publicKeysToProto resp }, [key])

/-- The status code with which a service call failed, `none` on success. -/
def resultErrCode {α : Type} : Except Status α → Option Code
  | Except.ok _ => none
  | Except.error st => some st.code

/-- Whether a fallible collaborator call succeeded. -/
def exceptIsOk {ε α : Type} : Except ε α → Bool
  | Except.ok _ => true
  | Except.error _ => false

/-- A concrete instance of the collaborator environment used to exercise the
handlers on concrete inputs: the trust-domain parser rejects the empty string
and the converters are straightforward field translations. -/
def envW : Env :=
  { trustDomainFromString := fun str =>
      if str = "" then Except.error { code := Code.unknown, msg := "trust domain is missing" }
      else Except.ok { name := str }
    bundleToProto := fun cb => Except.ok
      { trustDomain := cb.trustDomainId
        x509Authorities := cb.rootCas
        jwtAuthorities := cb.jwtSigningKeys.map (fun k =>
          { publicKey := k.pkixBytes, keyId := k.kid, expiresAt := k.notAfter })
        refreshHint := cb.refreshHint
        sequenceNumber := cb.sequenceNumber }
    protoToBundle := fun b => Except.ok
      { trustDomainId := b.trustDomain
        rootCas := b.x509Authorities
        jwtSigningKeys := b.jwtAuthorities.map (fun k =>
          { pkixBytes := k.publicKey, kid := k.keyId, notAfter := k.expiresAt })
        refreshHint := b.refreshHint
        sequenceNumber := b.sequenceNumber }
    parseJWTAuthorities := fun ks => Except.ok (ks.map (fun k =>
      { pkixBytes := k.publicKey, kid := k.keyId, notAfter := k.expiresAt }))
    parseX509Authorities := fun cs => Except.ok cs
    protoToBundleMask := fun m => m
    publicKeysToProto := fun ks => ks.map (fun k =>
      { publicKey := k.pkixBytes, keyId := k.kid, expiresAt := k.notAfter }) }

/-- A storage bundle with the given trust-domain identifier. -/
def cbOf (tdId : String) : CommonBundle :=
  { trustDomainId := tdId, rootCas := [], jwtSigningKeys := [], refreshHint := 30
    sequenceNumber := 7 }

/-- A concrete all-success storage oracle. -/
def dsW : DataStore :=
  { countBundles := Except.ok 2
    fetchBundle := fun tdId => Except.ok (some (cbOf tdId))
    listBundles := fun _ => Except.ok
      { bundles := [cbOf "example.org", cbOf "other.org"]
        pagination := some { pageSize := 2, token := "tok2" } }
    createBundle := fun cb => Except.ok cb
    updateBundle := fun cb _ => Except.ok cb
    setBundle := fun cb => Except.ok cb
    appendBundle := fun cb => Except.ok cb
    deleteBundle := fun _ _ => none }

/-- A concrete service whose configured trust domain is `example.org`. -/
def sW : Service := { ds := dsW, td := { name := "example.org" }, up := fun k => Except.ok [k] }

/-- A wire bundle for the server's own trust domain. -/
def bundleW : Bundle :=
  { trustDomain := "example.org", x509Authorities := [], jwtAuthorities := []
    refreshHint := 60, sequenceNumber := 5 }

/-- C8: projecting a bundle through an absent mask returns it unchanged. -/
theorem applyBundleMask_absent_identity (b : Bundle) : applyBundleMask b none = b := rfl

/-- C9: with a present mask, each field whose selector is unset is cleared to
its zero value and each field whose selector is set is left unchanged. -/
theorem applyBundleMask_present_projects (b : Bundle) (m : BundleMask) :
    (applyBundleMask b (some m)).refreshHint = (if m.refreshHint then b.refreshHint else 0)
    ∧ (applyBundleMask b (some m)).sequenceNumber
        = (if m.sequenceNumber then b.sequenceNumber else 0)
    ∧ (applyBundleMask b (some m)).x509Authorities
        = (if m.x509Authorities then b.x509Authorities else [])
    ∧ (applyBundleMask b (some m)).jwtAuthorities
        = (if m.jwtAuthorities then b.jwtAuthorities else []) :=
  ⟨rfl, rfl, rfl, rfl⟩

/-- C6: when the rate limiter denies a publish request, the call fails with the
limiter's own status code (not translated to Internal) and the upstream
publisher is never invoked. -/
theorem publishJWTAuthority_rate_limited (env : Env) (s : Service) (e : GoError)
    (req : PublishJWTAuthorityRequest) :
    (publishJWTAuthority env s (some e) req).1
      = Except.error
          (mkStatus e.code "rejecting request due to key publishing rate limiting" (some e))
    ∧ (publishJWTAuthority env s (some e) req).2 = [] :=
  ⟨rfl, rfl⟩

/-- C7: an AppendBundle request with both authority lists empty fails with
InvalidArgument and message "no authorities to append", without any storage
call. -/
theorem appendBundle_no_authorities (env : Env) (s : Service) (om : Option BundleMask) :
    (appendBundle env s { x509Authorities := [], jwtAuthorities := [], outputMask := om }).1
      = Except.error { code := Code.invalidArgument, message := "no authorities to append" }
    ∧ (appendBundle env s { x509Authorities := [], jwtAuthorities := [], outputMask := om }).2
        = [] := by
  constructor <;> simp [appendBundle, mkStatus]

/-- C1: every federated-bundle operation whose trust-domain input parses to the
server's own trust domain fails with InvalidArgument and performs no storage
call. -/
theorem federated_ops_reject_own_trust_domain (env : Env) (s : Service) (tdStr : String)
    (b : Bundle) (om im : Option BundleMask) (mode : DSDeleteMode)
    (hparse : env.trustDomainFromString tdStr = Except.ok s.td)
    (hb : b.trustDomain = tdStr) :
    resultErrCode (getFederatedBundle env s { trustDomain := tdStr, outputMask := om }).1
        = some Code.invalidArgument
    ∧ (getFederatedBundle env s { trustDomain := tdStr, outputMask := om }).2 = []
    ∧ (createFederatedBundle env s b om).1.status.code = Code.invalidArgument
    ∧ (createFederatedBundle env s b om).2 = []
    ∧ (updateFederatedBundle env s b im om).1.status.code = Code.invalidArgument
    ∧ (updateFederatedBundle env s b im om).2 = []
    ∧ (setFederatedBundle env s b om).1.status.code = Code.invalidArgument
    ∧ (setFederatedBundle env s b om).2 = []
    ∧ (deleteFederatedBundle env s tdStr mode).1.status.code = Code.invalidArgument
    ∧ (deleteFederatedBundle env s tdStr mode).2 = [] := by
  subst hb
  refine ⟨?_, ?_, ?_, ?_, ?_, ?_, ?_, ?_, ?_, ?_⟩ <;>
    simp [getFederatedBundle, createFederatedBundle, updateFederatedBundle, setFederatedBundle,
      deleteFederatedBundle, hparse, resultErrCode, mkStatus]

/-- Witness for C1 at a concrete service, environment and input. -/
theorem federated_ops_reject_own_trust_domain_witness :
    (envW.trustDomainFromString "example.org" = Except.ok sW.td
      ∧ bundleW.trustDomain = "example.org")
    ∧ (resultErrCode
          (getFederatedBundle envW sW { trustDomain := "example.org", outputMask := none }).1
          = some Code.invalidArgument
        ∧ (getFederatedBundle envW sW { trustDomain := "example.org", outputMask := none }).2 = []
        ∧ (createFederatedBundle envW sW bundleW none).1.status.code = Code.invalidArgument
        ∧ (createFederatedBundle envW sW bundleW none).2 = []
        ∧ (updateFederatedBundle envW sW bundleW none none).1.status.code = Code.invalidArgument
        ∧ (updateFederatedBundle envW sW bundleW none none).2 = []
        ∧ (setFederatedBundle envW sW bundleW none).1.status.code = Code.invalidArgument
        ∧ (setFederatedBundle envW sW bundleW none).2 = []
        ∧ (deleteFederatedBundle envW sW "example.org" DSDeleteMode.RESTRICT).1.status.code
            = Code.invalidArgument
        ∧ (deleteFederatedBundle envW sW "example.org" DSDeleteMode.RESTRICT).2 = []) :=
  ⟨⟨by decide, by decide⟩,
    federated_ops_reject_own_trust_domain envW sW "example.org" bundleW none none
      DSDeleteMode.RESTRICT (by decide) (by decide)⟩

/-- The create loop produces exactly the per-item handler results, in order. -/
theorem batchCreateLoop_fst (env : Env) (s : Service) (om : Option BundleMask) :
    ∀ bs : List Bundle,
      (batchCreateLoop env s om bs).1 = bs.map (fun b => (createFederatedBundle env s b om).1)
  | [] => rfl
  | b :: rest => by simp [batchCreateLoop, batchCreateLoop_fst env s om rest]

/-- The update loop produces exactly the per-item handler results, in order. -/
theorem batchUpdateLoop_fst (env : Env) (s : Service) (im om : Option BundleMask) :
    ∀ bs : List Bundle,
      (batchUpdateLoop env s im om bs).1
        = bs.map (fun b => (updateFederatedBundle env s b im om).1)
  | [] => rfl
  | b :: rest => by simp [batchUpdateLoop, batchUpdateLoop_fst env s im om rest]

/-- The set loop produces exactly the per-item handler results, in order. -/
theorem batchSetLoop_fst (env : Env) (s : Service) (om : Option BundleMask) :
    ∀ bs : List Bundle,
      (batchSetLoop env s om bs).1 = bs.map (fun b => (setFederatedBundle env s b om).1)
  | [] => rfl
  | b :: rest => by simp [batchSetLoop, batchSetLoop_fst env s om rest]

/-- The delete loop produces exactly the per-item handler results, in order. -/
theorem batchDeleteLoop_fst (env : Env) (s : Service) (mode : DSDeleteMode) :
    ∀ ts : List String,
      (batchDeleteLoop env s mode ts).1 = ts.map (fun t => (deleteFederatedBundle env s t mode).1)
  | [] => rfl
  | t :: rest => by simp [batchDeleteLoop, batchDeleteLoop_fst env s mode rest]

/-- C2: every batch operation returns one result per input, in input order,
each result being the per-item handler's outcome on the corresponding input;
no item's failure suppresses a sibling's result. -/
theorem batch_one_result_per_input (env : Env) (s : Service)
    (reqC : BatchCreateFederatedBundleRequest) (reqU : BatchUpdateFederatedBundleRequest)
    (reqS : BatchSetFederatedBundleRequest) (reqD : BatchDeleteFederatedBundleRequest)
    (m : DSDeleteMode) (hmode : parseDeleteMode reqD.mode = Except.ok m) :
    ((batchCreateFederatedBundle env s reqC).1.results
        = reqC.bundle.map (fun b => (createFederatedBundle env s b reqC.outputMask).1)
      ∧ (batchCreateFederatedBundle env s reqC).1.results.length = reqC.bundle.length)
    ∧ ((batchUpdateFederatedBundle env s reqU).1.results
        = reqU.bundle.map (fun b => (updateFederatedBundle env s b reqU.inputMask reqU.outputMask).1)
      ∧ (batchUpdateFederatedBundle env s reqU).1.results.length = reqU.bundle.length)
    ∧ ((batchSetFederatedBundle env s reqS).1.results
        = reqS.bundle.map (fun b => (setFederatedBundle env s b reqS.outputMask).1)
      ∧ (batchSetFederatedBundle env s reqS).1.results.length = reqS.bundle.length)
    ∧ ((batchDeleteFederatedBundle env s reqD).1
        = Except.ok
            { results := reqD.trustDomains.map (fun t => (deleteFederatedBundle env s t m).1) }
      ∧ (reqD.trustDomains.map (fun t => (deleteFederatedBundle env s t m).1)).length
          = reqD.trustDomains.length) := by
  refine ⟨⟨?_, ?_⟩, ⟨?_, ?_⟩, ⟨?_, ?_⟩, ⟨?_, ?_⟩⟩ <;>
    simp [batchCreateFederatedBundle, batchUpdateFederatedBundle, batchSetFederatedBundle,
      batchDeleteFederatedBundle, batchCreateLoop_fst, batchUpdateLoop_fst, batchSetLoop_fst,
      batchDeleteLoop_fst, hmode]

/-- A wire bundle for a foreign trust domain. -/
def bundleOtherW : Bundle :=
  { trustDomain := "other.org", x509Authorities := [], jwtAuthorities := []
    refreshHint := 0, sequenceNumber := 0 }

/-- Witness for C2: two-element batches mixing a failing (server's own trust
domain) item with a succeeding one. -/
theorem batch_one_result_per_input_witness :
    parseDeleteMode ModeRESTRICT = Except.ok DSDeleteMode.RESTRICT
    ∧ (((batchCreateFederatedBundle envW sW { bundle := [bundleW, bundleOtherW], outputMask := none }).1.results
          = [bundleW, bundleOtherW].map
              (fun b => (createFederatedBundle envW sW b none).1)
        ∧ (batchCreateFederatedBundle envW sW { bundle := [bundleW, bundleOtherW], outputMask := none }).1.results.length
            = [bundleW, bundleOtherW].length)
      ∧ ((batchUpdateFederatedBundle envW sW { bundle := [bundleW, bundleOtherW], inputMask := none, outputMask := none }).1.results
          = [bundleW, bundleOtherW].map
              (fun b => (updateFederatedBundle envW sW b none none).1)
        ∧ (batchUpdateFederatedBundle envW sW { bundle := [bundleW, bundleOtherW], inputMask := none, outputMask := none }).1.results.length
            = [bundleW, bundleOtherW].length)
      ∧ ((batchSetFederatedBundle envW sW { bundle := [bundleW, bundleOtherW], outputMask := none }).1.results
          = [bundleW, bundleOtherW].map (fun b => (setFederatedBundle envW sW b none).1)
        ∧ (batchSetFederatedBundle envW sW { bundle := [bundleW, bundleOtherW], outputMask := none }).1.results.length
            = [bundleW, bundleOtherW].length)
      ∧ ((batchDeleteFederatedBundle envW sW { trustDomains := ["example.org", "other.org"], mode := ModeRESTRICT }).1
          = Except.ok
              { results := ["example.org", "other.org"].map
                  (fun t => (deleteFederatedBundle envW sW t DSDeleteMode.RESTRICT).1) }
        ∧ (["example.org", "other.org"].map
              (fun t => (deleteFederatedBundle envW sW t DSDeleteMode.RESTRICT).1)).length
            = ["example.org", "other.org"].length)) :=
  ⟨by decide,
    batch_one_result_per_input envW sW
      { bundle := [bundleW, bundleOtherW], outputMask := none }
      { bundle := [bundleW, bundleOtherW], inputMask := none, outputMask := none }
      { bundle := [bundleW, bundleOtherW], outputMask := none }
      { trustDomains := ["example.org", "other.org"], mode := ModeRESTRICT }
      DSDeleteMode.RESTRICT (by decide)⟩

/-- The storage image of `bundleOtherW` under `envW`'s converter. -/
def cbOther : CommonBundle :=
  { trustDomainId := "other.org", rootCas := [], jwtSigningKeys := [], refreshHint := 0
    sequenceNumber := 0 }

/-- A storage oracle whose mutating calls fail: create, update and set fail
with a plain error, delete fails with PermissionDenied. -/
def dsErrW : DataStore :=
  { countBundles := Except.ok 0
    fetchBundle := fun _ => Except.ok none
    listBundles := fun _ => Except.ok { bundles := [], pagination := none }
    createBundle := fun _ => Except.error { code := Code.unknown, msg := "create failed" }
    updateBundle := fun _ _ => Except.error { code := Code.unknown, msg := "update failed" }
    setBundle := fun _ => Except.error { code := Code.unknown, msg := "set failed" }
    appendBundle := fun cb => Except.ok cb
    deleteBundle := fun _ _ => some { code := Code.permissionDenied, msg := "denied" } }

/-- The service `sW` backed by the failing storage oracle. -/
def sErrW : Service :=
  { ds := dsErrW, td := { name := "example.org" }, up := fun k => Except.ok [k] }

/-- C3 counterexample: the delete handler does not translate a PermissionDenied
storage error (which is neither OK nor NotFound) to Internal; it passes the
storage code through. -/
theorem deleteFederatedBundle_not_internal_cex :
    sErrW.ds.deleteBundle "spiffe://other.org" DSDeleteMode.RESTRICT
      = some { code := Code.permissionDenied, msg := "denied" }
    ∧ (deleteFederatedBundle envW sErrW "other.org" DSDeleteMode.RESTRICT).1.status.code
        = Code.permissionDenied
    ∧ ¬ (deleteFederatedBundle envW sErrW "other.org" DSDeleteMode.RESTRICT).1.status.code
        = Code.internal := by
  refine ⟨by decide, by decide, by decide⟩

/-- C3 amended: for the create, update and set handlers a storage failure that
is neither not-found nor already-exists yields an Internal item status; the
delete handler instead reuses the storage error's own status code. -/
theorem storage_error_translation (env : Env) (s : Service) (b : Bundle)
    (tdStr : String) (td : TrustDomain) (dsB : CommonBundle)
    (im om : Option BundleMask) (mode : DSDeleteMode) (e1 e2 e3 e4 : GoError)
    (hb : b.trustDomain = tdStr)
    (hparse : env.trustDomainFromString tdStr = Except.ok td)
    (hne : ¬ s.td = td)
    (hconv : env.protoToBundle b = Except.ok dsB)
    (hcr : s.ds.createBundle dsB = Except.error e1)
    (he1 : ¬ e1.code = Code.notFound ∧ ¬ e1.code = Code.alreadyExists)
    (hup : s.ds.updateBundle dsB (env.protoToBundleMask im) = Except.error e2)
    (he2 : ¬ e2.code = Code.notFound ∧ ¬ e2.code = Code.alreadyExists)
    (hset : s.ds.setBundle dsB = Except.error e3)
    (hdel : s.ds.deleteBundle (idString td) mode = some e4)
    (he4 : ¬ e4.code = Code.ok ∧ ¬ e4.code = Code.notFound) :
    (createFederatedBundle env s b om).1.status.code = Code.internal
    ∧ (updateFederatedBundle env s b im om).1.status.code = Code.internal
    ∧ (setFederatedBundle env s b om).1.status.code = Code.internal
    ∧ (deleteFederatedBundle env s tdStr mode).1.status.code = e4.code := by
  subst hb
  refine ⟨?_, ?_, ?_, ?_⟩
  · simp only [createFederatedBundle, hparse, if_neg hne, hconv, hcr]
    cases hc : e1.code <;> simp_all [mkStatus]
  · simp only [updateFederatedBundle, hparse, if_neg hne, hconv, hup]
    cases hc : e2.code <;> simp_all [mkStatus]
  · simp [setFederatedBundle, hparse, if_neg hne, hconv, hset, mkStatus]
  · simp only [deleteFederatedBundle, hparse, if_neg hne, hdel]
    cases hc : e4.code <;> simp_all [mkStatus]

/-- Witness for the amended C3 at the failing storage oracle. -/
theorem storage_error_translation_witness :
    (bundleOtherW.trustDomain = "other.org"
      ∧ envW.trustDomainFromString "other.org" = Except.ok { name := "other.org" }
      ∧ ¬ sErrW.td = { name := "other.org" }
      ∧ envW.protoToBundle bundleOtherW = Except.ok (cbOther)
      ∧ sErrW.ds.createBundle cbOther = Except.error { code := Code.unknown, msg := "create failed" }
      ∧ sErrW.ds.updateBundle cbOther (envW.protoToBundleMask none)
          = Except.error { code := Code.unknown, msg := "update failed" }
      ∧ sErrW.ds.setBundle cbOther = Except.error { code := Code.unknown, msg := "set failed" }
      ∧ sErrW.ds.deleteBundle (idString { name := "other.org" }) DSDeleteMode.RESTRICT
          = some { code := Code.permissionDenied, msg := "denied" })
    ∧ ((createFederatedBundle envW sErrW bundleOtherW none).1.status.code = Code.internal
      ∧ (updateFederatedBundle envW sErrW bundleOtherW none none).1.status.code = Code.internal
      ∧ (setFederatedBundle envW sErrW bundleOtherW none).1.status.code = Code.internal
      ∧ (deleteFederatedBundle envW sErrW "other.org" DSDeleteMode.RESTRICT).1.status.code
          = GoError.code { code := Code.permissionDenied, msg := "denied" }) :=
  ⟨⟨by decide, by decide, by decide, by decide, by decide, by decide, by decide, by decide⟩,
    storage_error_translation envW sErrW bundleOtherW "other.org" { name := "other.org" }
      cbOther none none DSDeleteMode.RESTRICT
      { code := Code.unknown, msg := "create failed" }
      { code := Code.unknown, msg := "update failed" }
      { code := Code.unknown, msg := "set failed" }
      { code := Code.permissionDenied, msg := "denied" }
      (by decide) (by decide) (by decide) (by decide) (by decide) ⟨by decide, by decide⟩
      (by decide) ⟨by decide, by decide⟩ (by decide) (by decide) ⟨by decide, by decide⟩⟩

/-- C4: `parseDeleteMode` accepts exactly RESTRICT, DISSOCIATE and DELETE,
fails for every other value naming the invalid mode, and an invalid mode
aborts the whole `BatchDeleteFederatedBundle` call with InvalidArgument,
producing no per-item results and making no storage call. -/
theorem parseDeleteMode_exactly_three (m : Int) (env : Env) (s : Service)
    (req : BatchDeleteFederatedBundleRequest) (e : GoError)
    (hm : ¬ m = ModeRESTRICT ∧ ¬ m = ModeDISSOCIATE ∧ ¬ m = ModeDELETE)
    (hreq : parseDeleteMode req.mode = Except.error e) :
    parseDeleteMode ModeRESTRICT = Except.ok DSDeleteMode.RESTRICT
    ∧ parseDeleteMode ModeDISSOCIATE = Except.ok DSDeleteMode.DISSOCIATE
    ∧ parseDeleteMode ModeDELETE = Except.ok DSDeleteMode.DELETE
    ∧ parseDeleteMode m
        = Except.error { code := Code.unknown, msg := "unhandled delete mode " ++ toString m }
    ∧ (batchDeleteFederatedBundle env s req).1
        = Except.error (mkStatus Code.invalidArgument "failed to parse deletion mode" (some e))
    ∧ (batchDeleteFederatedBundle env s req).2 = [] := by
  obtain ⟨h0, h1, h2⟩ := hm
  refine ⟨by decide, by decide, by decide, ?_, ?_, ?_⟩
  · simp [parseDeleteMode, h0, h1, h2]
  · simp [batchDeleteFederatedBundle, hreq]
  · simp [batchDeleteFederatedBundle, hreq]

/-- Witness for C4 at the invalid mode value 5. -/
theorem parseDeleteMode_exactly_three_witness :
    ((¬ (5 : Int) = ModeRESTRICT ∧ ¬ (5 : Int) = ModeDISSOCIATE ∧ ¬ (5 : Int) = ModeDELETE)
      ∧ parseDeleteMode (BatchDeleteFederatedBundleRequest.mode
          { trustDomains := ["other.org"], mode := 5 })
          = Except.error { code := Code.unknown, msg := "unhandled delete mode 5" })
    ∧ (parseDeleteMode ModeRESTRICT = Except.ok DSDeleteMode.RESTRICT
      ∧ parseDeleteMode ModeDISSOCIATE = Except.ok DSDeleteMode.DISSOCIATE
      ∧ parseDeleteMode ModeDELETE = Except.ok DSDeleteMode.DELETE
      ∧ parseDeleteMode (5 : Int)
          = Except.error { code := Code.unknown, msg := "unhandled delete mode " ++ toString (5 : Int) }
      ∧ (batchDeleteFederatedBundle envW sW { trustDomains := ["other.org"], mode := 5 }).1
          = Except.error
              (mkStatus Code.invalidArgument "failed to parse deletion mode"
                (some { code := Code.unknown, msg := "unhandled delete mode 5" }))
      ∧ (batchDeleteFederatedBundle envW sW { trustDomains := ["other.org"], mode := 5 }).2
          = []) :=
  ⟨⟨⟨by decide, by decide, by decide⟩, by decide⟩,
    parseDeleteMode_exactly_three 5 envW sW { trustDomains := ["other.org"], mode := 5 }
      { code := Code.unknown, msg := "unhandled delete mode 5" }
      ⟨by decide, by decide, by decide⟩ (by decide)⟩

/-- Modelled from the spec: the expected `ListFederatedBundles` content — the
storage bundles excluding the server's own trust domain, each converted and
projected through the output mask, in storage order. -/
def listFederatedBundlesSpecBundles (env : Env) (s : Service) (om : Option BundleMask) :
    List CommonBundle → List Bundle
  | [] => []
  | cb :: rest =>
    match env.trustDomainFromString cb.trustDomainId with
    | Except.ok td =>
      if s.td = td then listFederatedBundlesSpecBundles env s om rest
      else
        match env.bundleToProto cb with
        | Except.ok b => applyBundleMask b om :: listFederatedBundlesSpecBundles env s om rest
        | Except.error _ => listFederatedBundlesSpecBundles env s om rest
    | Except.error _ => listFederatedBundlesSpecBundles env s om rest

/-- A successful run of the listing loop returns exactly the spec content. -/
theorem listLoop_ok_eq_spec (env : Env) (s : Service) (om : Option BundleMask) :
    ∀ (cbs : List CommonBundle) (bs : List Bundle),
      listFederatedBundlesLoop env s om cbs = Except.ok bs →
      bs = listFederatedBundlesSpecBundles env s om cbs := by
  intro cbs
  induction cbs with
  | nil =>
    intro bs h
    simp only [listFederatedBundlesLoop] at h
    simp only [listFederatedBundlesSpecBundles]
    exact (Except.ok.inj h).symm
  | cons cb rest ih =>
    intro bs h
    simp only [listFederatedBundlesLoop] at h
    simp only [listFederatedBundlesSpecBundles]
    cases hp : env.trustDomainFromString cb.trustDomainId with
    | error e => simp [hp] at h
    | ok td =>
      simp only [hp] at h ⊢
      by_cases hse : s.td = td
      · simp only [if_pos hse] at h ⊢
        exact ih bs h
      · simp only [if_neg hse] at h ⊢
        cases hc : env.bundleToProto cb with
        | error e => simp [hc] at h
        | ok b =>
          simp only [hc] at h ⊢
          cases hr : listFederatedBundlesLoop env s om rest with
          | error st => simp [hr] at h
          | ok bs0 =>
            simp only [hr] at h
            rw [ih bs0 hr] at h
            exact (Except.ok.inj h).symm

/-- C5: a successful `ListFederatedBundles` call returns exactly the storage
bundles other than the server's own, converted and masked in storage order,
and carries the storage continuation token forward unchanged. -/
theorem listFederatedBundles_success (env : Env) (s : Service)
    (req : ListFederatedBundlesRequest) (resp : ListFederatedBundlesResponse)
    (dsResp : ListBundlesResponse)
    (hds : s.ds.listBundles (reqPagination req) = Except.ok dsResp)
    (hok : (listFederatedBundles env s req).1 = Except.ok resp) :
    resp.bundles = listFederatedBundlesSpecBundles env s req.outputMask dsResp.bundles
    ∧ resp.nextPageToken = (dsResp.pagination.map (fun p => p.token)).getD "" := by
  simp only [listFederatedBundles, hds] at hok
  cases hr : listFederatedBundlesLoop env s req.outputMask dsResp.bundles with
  | error st => simp [hr] at hok
  | ok bs =>
    simp only [hr] at hok
    have h2 := Except.ok.inj hok
    subst h2
    exact ⟨listLoop_ok_eq_spec env s req.outputMask dsResp.bundles bs hr, rfl⟩

/-- The listing request used by the concrete listing runs. -/
def reqListW : ListFederatedBundlesRequest := { outputMask := none, pageSize := 2, pageToken := "t0" }

/-- The storage page returned by `dsW.listBundles`. -/
def dsRespW : ListBundlesResponse :=
  { bundles := [cbOf "example.org", cbOf "other.org"]
    pagination := some { pageSize := 2, token := "tok2" } }

/-- The expected listing response: the server's own bundle is filtered out. -/
def respListW : ListFederatedBundlesResponse :=
  { bundles := [{ trustDomain := "other.org", x509Authorities := [], jwtAuthorities := []
                  refreshHint := 30, sequenceNumber := 7 }]
    nextPageToken := "tok2" }

/-- Witness for C5 at a storage page holding the server's own bundle and a
federated one. -/
theorem listFederatedBundles_success_witness :
    (sW.ds.listBundles (reqPagination reqListW) = Except.ok dsRespW
      ∧ (listFederatedBundles envW sW reqListW).1 = Except.ok respListW)
    ∧ (respListW.bundles
          = listFederatedBundlesSpecBundles envW sW reqListW.outputMask dsRespW.bundles
      ∧ respListW.nextPageToken = (dsRespW.pagination.map (fun p => p.token)).getD "") :=
  ⟨⟨by decide, by decide⟩,
    listFederatedBundles_success envW sW reqListW respListW dsRespW (by decide) (by decide)⟩

/-- If some storage bundle's trust-domain identifier fails to parse, the
listing loop aborts with an Internal error. -/
theorem listLoop_bad_td_internal (env : Env) (s : Service) (om : Option BundleMask) :
    ∀ cbs : List CommonBundle,
      (∃ cb ∈ cbs, exceptIsOk (env.trustDomainFromString cb.trustDomainId) = false) →
      resultErrCode (listFederatedBundlesLoop env s om cbs) = some Code.internal := by
  intro cbs
  induction cbs with
  | nil =>
    intro hbad
    obtain ⟨cb0, hmem, _⟩ := hbad
    cases hmem
  | cons cb rest ih =>
    intro hbad
    obtain ⟨cb0, hmem, hbadp⟩ := hbad
    simp only [listFederatedBundlesLoop]
    cases hp : env.trustDomainFromString cb.trustDomainId with
    | error e => simp [mkStatus, resultErrCode]
    | ok td =>
      have hrest : ∃ cb1 ∈ rest, exceptIsOk (env.trustDomainFromString cb1.trustDomainId) = false := by
        rcases List.mem_cons.mp hmem with hh | ht
        · exfalso
          rw [hh, hp] at hbadp
          simp [exceptIsOk] at hbadp
        · exact ⟨cb0, ht, hbadp⟩
      have hr := ih hrest
      by_cases hse : s.td = td
      · simp only [if_pos hse]
        exact hr
      · simp only [if_neg hse]
        cases hc : env.bundleToProto cb with
        | error e => simp [mkStatus, resultErrCode]
        | ok b =>
          cases hl : listFederatedBundlesLoop env s om rest with
          | error st =>
            rw [hl] at hr
            simpa [resultErrCode] using hr
          | ok bs =>
            rw [hl] at hr
            simp [resultErrCode] at hr

/-- C10: if any storage bundle carries a malformed trust-domain identifier,
the whole `ListFederatedBundles` call fails with an Internal error and no
bundles are returned. -/
theorem listFederatedBundles_bad_trust_domain (env : Env) (s : Service)
    (req : ListFederatedBundlesRequest) (dsResp : ListBundlesResponse)
    (hds : s.ds.listBundles (reqPagination req) = Except.ok dsResp)
    (hbad : ∃ cb ∈ dsResp.bundles,
      exceptIsOk (env.trustDomainFromString cb.trustDomainId) = false) :
    resultErrCode (listFederatedBundles env s req).1 = some Code.internal := by
  have hl := listLoop_bad_td_internal env s req.outputMask dsResp.bundles hbad
  simp only [listFederatedBundles, hds]
  cases hr : listFederatedBundlesLoop env s req.outputMask dsResp.bundles with
  | error st =>
    rw [hr] at hl
    simpa [resultErrCode] using hl
  | ok bs =>
    rw [hr] at hl
    simp [resultErrCode] at hl

/-- A storage oracle whose listing page holds a bundle with an empty (hence
unparseable) trust-domain identifier. -/
def dsBadW : DataStore :=
  { countBundles := Except.ok 2
    fetchBundle := fun _ => Except.ok none
    listBundles := fun _ => Except.ok { bundles := [cbOf "good.org", cbOf ""], pagination := none }
    createBundle := fun cb => Except.ok cb
    updateBundle := fun cb _ => Except.ok cb
    setBundle := fun cb => Except.ok cb
    appendBundle := fun cb => Except.ok cb
    deleteBundle := fun _ _ => none }

/-- The service backed by the malformed-listing storage oracle. -/
def sBadW : Service :=
  { ds := dsBadW, td := { name := "example.org" }, up := fun k => Except.ok [k] }

/-- The unpaginated listing request used by the malformed-listing run. -/
def reqListBadW : ListFederatedBundlesRequest :=
  { outputMask := none, pageSize := 0, pageToken := "" }

/-- Witness for C10: a malformed storage entry makes the whole call fail with
Internal even though a well-formed entry precedes it. -/
theorem listFederatedBundles_bad_trust_domain_witness :
    (sBadW.ds.listBundles (reqPagination reqListBadW)
        = Except.ok { bundles := [cbOf "good.org", cbOf ""], pagination := none }
      ∧ ∃ cb ∈ ({ bundles := [cbOf "good.org", cbOf ""], pagination := none } : ListBundlesResponse).bundles,
          exceptIsOk (envW.trustDomainFromString cb.trustDomainId) = false)
    ∧ resultErrCode (listFederatedBundles envW sBadW reqListBadW).1 = some Code.internal :=
  ⟨⟨by decide, by decide⟩,
    listFederatedBundles_bad_trust_domain envW sBadW reqListBadW
      { bundles := [cbOf "good.org", cbOf ""], pagination := none } (by decide) (by decide)⟩

end SpireBundle
